import Mathlib

/-!
Shallow embedding of `src/helpers/message_batching_manager.ts`
(class `MessageBatchingManager`) from the amqp-cacoon repository.

The TypeScript class holds mutable instance fields
(`unackedMessageList`, `bufferSize`, `timerHandle`, `amqpChannel`); here
they become an explicit state record threaded through the operations.
The broker channel (`ChannelWrapper`) is modelled as a plain identifier
(`Nat`); its `ack`/`nack` calls are modelled as emitted `SinkEvent`s.
The batch handler is an arbitrary function that may emit its own sink
events and may fail (a thrown exception / rejected promise is the
`fails := true` outcome).  Timer firing is modelled by an explicit
`Event.timerFire` in an event-list operational semantics; the JavaScript
run-to-completion model makes each message arrival and each timer
callback an atomic step (the handler is a pure function of the batch).
Async functions that can reject have an `Except Unit` codomain;
propagating an `await`ed rejection is propagating the `.error`.
-/

namespace AmqpCacoon

/-- One broker-delivered message: an identity tag plus the byte length of
its `content` payload (`msg.content.byteLength` is all the manager reads). -/
structure ConsumeMessage where
  tag : Nat
  byteLength : Nat
  deriving DecidableEq, Repr

/-- Translation of `IMessageBatchingManagerConfig` without the logger (logging has no
effect on the modelled state).  `Option Nat` mirrors the optional
`number` fields; `skipNackOnFail` collapses `undefined` to `false`, which
is how the code consumes it (`!this.config.skipNackOnFail`). -/
structure Config where
  maxSizeBytes : Option Nat
  maxTimeMs : Option Nat
  skipNackOnFail : Bool
  deriving DecidableEq, Repr

/-- An `ack`/`nack` call made on the channel (the sink), recording which
channel, which message, and — for `nack` — the `requeue` argument
(`none` = omitted). -/
inductive SinkEvent where
  | ack (channel : Nat) (msg : ConsumeMessage)
  | nack (channel : Nat) (msg : ConsumeMessage) (requeue : Option Bool)
  deriving DecidableEq, Repr

/-- The mutable instance fields of `MessageBatchingManager`.
`timerHandle : Option Unit` models `timerHandle?: NodeJS.Timeout`
(armed or not); `amqpChannel` models the `amqpChannel?` field. -/
structure MBMState where
  unackedMessageList : List ConsumeMessage
  bufferSize : Nat
  timerHandle : Option Unit
  amqpChannel : Option Nat
  deriving DecidableEq, Repr

/-- The declared initial values of the instance fields, before the
constructor body runs: `unackedMessageList = []`, `bufferSize = 1`. -/
def fieldInitState : MBMState :=
  { unackedMessageList := [], bufferSize := 1, timerHandle := none, amqpChannel := none }

/-- Translation of `resetMessages`: reset `unackedMessageList` to `[]` and `bufferSize` to `0`. -/
def resetMessages (s : MBMState) : MBMState :=
  { s with unackedMessageList := [], bufferSize := 0 }

/-- The constructor `new MessageBatchingManager(config)`: field
initializers, then `this.resetMessages()`.  The configuration is stored
but does not influence the initial store state. -/
def initState (_config : Config) : MBMState :=
  resetMessages fieldInitState

/-- Translation of `getMessageCount`: length of `unackedMessageList`. -/
def getMessageCount (s : MBMState) : Nat :=
  s.unackedMessageList.length

/-- Translation of `getBufferSize`: the `bufferSize` field. -/
def getBufferSize (s : MBMState) : Nat :=
  s.bufferSize

/-- Translation of `addMessage`: push `msg` onto the list and add `msg.content.byteLength`
to `bufferSize`. -/
def addMessage (msg : ConsumeMessage) (s : MBMState) : MBMState :=
  { s with
    unackedMessageList := s.unackedMessageList ++ [msg]
    bufferSize := s.bufferSize + msg.byteLength }

/-- Translation of `finalizeMessages`: return the current `bufferSize` and
`unackedMessageList`, and reset the store. -/
def finalizeMessages (s : MBMState) : (Nat × List ConsumeMessage) × MBMState :=
  ((s.bufferSize, s.unackedMessageList), resetMessages s)

/-- Translation of `ackMessageList`: `channel.ack(msg)` for each message, in list order. -/
def ackMessageList (channel : Nat) (messageList : List ConsumeMessage) : List SinkEvent :=
  messageList.map (fun msg => SinkEvent.ack channel msg)

/-- Translation of `nackMessageList`: `channel.nack(msg, requeue)` for each message, in
list order (`requeue = none` when the argument is omitted). -/
def nackMessageList (channel : Nat) (messageList : List ConsumeMessage)
    (requeue : Option Bool) : List SinkEvent :=
  messageList.map (fun msg => SinkEvent.nack channel msg requeue)

/-- The `batchingOptions` part of `ConsumeBatchMessages`. -/
structure BatchingOptions where
  maxTimeMs : Option Nat
  maxSizeBytes : Option Nat
  deriving DecidableEq, Repr

/-- Translation of `ConsumeBatchMessages`: the batch handle passed to the handler.
`ackAll` is the list of sink calls made when the handler invokes the
`ackAll` closure; `nackAll requeue` likewise.  Both closures capture the
local `channel` and `unackedMessageList` values of
`sendBufferedMessages`, not the manager's live fields. -/
structure ConsumeBatchMessages where
  batchingOptions : BatchingOptions
  totalSizeInBytes : Nat
  messages : List ConsumeMessage
  ackAll : List SinkEvent
  nackAll : Option Bool → List SinkEvent

/-- Outcome of one handler invocation: the sink events the handler itself
emitted (via the handle's closures or otherwise), and whether it threw /
rejected. -/
structure HandlerOutcome where
  events : List SinkEvent
  fails : Bool

/-- The batch handler: `(channel, msg: ConsumeBatchMessages) => Promise<void>`. -/
def Handler : Type :=
  Nat → ConsumeBatchMessages → HandlerOutcome

/-- Builds the `ConsumeBatchMessages` literal of `sendBufferedMessages`
from the finalized `bufferSize` and `unackedMessageList`. -/
def mkBatch (config : Config) (channel : Nat) (bufferSize : Nat)
    (unackedMessageList : List ConsumeMessage) : ConsumeBatchMessages :=
  { batchingOptions :=
      { maxTimeMs := config.maxTimeMs, maxSizeBytes := config.maxSizeBytes }
    totalSizeInBytes := bufferSize
    messages := unackedMessageList
    ackAll := ackMessageList channel unackedMessageList
    nackAll := fun requeue => nackMessageList channel unackedMessageList requeue }

/-- Observable record of one flush (one call of `sendBufferedMessages`):
the channel it used, the detached batch handed to the handler, the
handler's own sink events, whether the handler failed, and the sink
events the manager itself made in the `catch` block. -/
structure FlushRecord where
  channel : Nat
  totalSizeInBytes : Nat
  messages : List ConsumeMessage
  handlerEvents : List SinkEvent
  handlerFailed : Bool
  coordinatorNacks : List SinkEvent
  deriving DecidableEq, Repr

/-- Translation of `sendBufferedMessages`: finalize the buffer, hand the batch to the
handler, and on handler failure nack the detached list unless
`skipNackOnFail` is set or the list is empty.  The `try`/`catch` absorbs
the handler's failure, so the function resolves (returns `.ok`) on every
path; the `Except Unit` codomain records that, as an `async` function,
it could in principle reject. -/
def sendBufferedMessages (config : Config) (channel : Nat) (handler : Handler)
    (s : MBMState) : Except Unit (MBMState × FlushRecord) :=
  match finalizeMessages s with
  | ((bufferSize, unackedMessageList), s1) =>
    let messages := mkBatch config channel bufferSize unackedMessageList
    let out := handler channel messages
    if out.fails then
      -- catch (e): nack unackedMessageList unless suppressed
      if !config.skipNackOnFail && decide (0 < unackedMessageList.length) then
        Except.ok (s1,
          { channel := channel, totalSizeInBytes := bufferSize
            messages := unackedMessageList, handlerEvents := out.events
            handlerFailed := true
            coordinatorNacks := nackMessageList channel unackedMessageList none })
      else
        Except.ok (s1,
          { channel := channel, totalSizeInBytes := bufferSize
            messages := unackedMessageList, handlerEvents := out.events
            handlerFailed := true, coordinatorNacks := [] })
    else
      Except.ok (s1,
        { channel := channel, totalSizeInBytes := bufferSize
          messages := unackedMessageList, handlerEvents := out.events
          handlerFailed := false, coordinatorNacks := [] })

/-- The truthiness test
`this.config.maxSizeBytes && this.bufferSize >= this.config.maxSizeBytes`:
`maxSizeBytes` must be present and nonzero, and the buffer size must have
reached it. -/
def maxSizeTriggered (config : Config) (bufferSize : Nat) : Bool :=
  match config.maxSizeBytes with
  | some n => decide (n ≠ 0) && decide (bufferSize ≥ n)
  | none => false

/-- The truthiness test `this.config.maxTimeMs`. -/
def maxTimeConfigured (config : Config) : Bool :=
  match config.maxTimeMs with
  | some t => decide (t ≠ 0)
  | none => false

/-- Translation of `handleMessageBuffering`: record the channel, buffer the message,
then either flush (size threshold reached: cancel any armed timer and
`await sendBufferedMessages`) or arm the flush timer if `maxTimeMs` is
configured and no timer is armed.  Returns the new state and the flush
record when this call flushed synchronously; an `.error` would be a
rejection propagated from the awaited flush. -/
def handleMessageBuffering (config : Config) (channel : Nat)
    (msg : ConsumeMessage) (handler : Handler) (s : MBMState) :
    Except Unit (MBMState × Option FlushRecord) :=
  let s0 := { s with amqpChannel := some channel }
  let s1 := addMessage msg s0
  if maxSizeTriggered config s1.bufferSize then
    -- clear the timer if armed, then send
    let s2 := if s1.timerHandle.isSome then { s1 with timerHandle := none } else s1
    match sendBufferedMessages config (s2.amqpChannel.getD 0) handler s2 with
    | Except.ok (s3, rec) => Except.ok (s3, some rec)
    | Except.error e => Except.error e
  else if maxTimeConfigured config then
    if s1.timerHandle.isNone then
      Except.ok ({ s1 with timerHandle := some () }, none)
    else
      Except.ok (s1, none)
  else
    Except.ok (s1, none)

/-- An external stimulus: a message arrival (one `handleMessageBuffering`
call on a channel) or the armed flush timer firing. -/
inductive Event where
  | arrive (channel : Nat) (msg : ConsumeMessage)
  | timerFire
  deriving DecidableEq, Repr

/-- One atomic step of the run-to-completion scheduler.  An `arrive`
event runs `handleMessageBuffering` (a rejection, which never happens,
would leave the state to the run's continuation unchanged).  A
`timerFire` event runs the `setTimeout` callback when a timer is armed:
`sendBufferedMessages(this.amqpChannel!, handler)` followed by
`this.timerHandle = undefined`; when no timer is armed no callback is
pending, so the event is a no-op. -/
def step (config : Config) (handler : Handler) (s : MBMState) (e : Event) :
    MBMState × List FlushRecord :=
  match e with
  | Event.arrive channel msg =>
    match handleMessageBuffering config channel msg handler s with
    | Except.ok (s1, some rec) => (s1, [rec])
    | Except.ok (s1, none) => (s1, [])
    | Except.error _ => (s, [])
  | Event.timerFire =>
    match s.timerHandle with
    | some _ =>
      match sendBufferedMessages config (s.amqpChannel.getD 0) handler s with
      | Except.ok (s1, rec) => ({ s1 with timerHandle := none }, [rec])
      | Except.error _ => ({ s with timerHandle := none }, [])
    | none => (s, [])

/-- Run a list of events from a state, collecting flush records in order. -/
def runEvents (config : Config) (handler : Handler) (evs : List Event)
    (s : MBMState) : MBMState × List FlushRecord :=
  match evs with
  | [] => (s, [])
  | e :: rest =>
    let p := step config handler s e
    let q := runEvents config handler rest p.1
    (q.1, p.2 ++ q.2)

/-- The messages delivered by a list of events, in arrival order. -/
def arrivals (evs : List Event) : List ConsumeMessage :=
  evs.filterMap (fun e =>
    match e with
    | Event.arrive _ msg => some msg
    | Event.timerFire => none)

/-- Total payload byte size of a list of messages. -/
def sumBytes (l : List ConsumeMessage) : Nat :=
  (l.map (fun m => m.byteLength)).sum

/-! ### Concrete sample values (used to exercise the definitions) -/

/-- A 4-byte message. -/
def msgA : ConsumeMessage := { tag := 1, byteLength := 4 }

/-- A second 4-byte message. -/
def msgB : ConsumeMessage := { tag := 2, byteLength := 4 }

/-- A third 4-byte message. -/
def msgC : ConsumeMessage := { tag := 3, byteLength := 4 }

/-- A 5-byte message. -/
def msgD : ConsumeMessage := { tag := 4, byteLength := 5 }

/-- A handler that always throws, emitting no sink events itself. -/
def failingHandler : Handler := fun _ _ => { events := [], fails := true }

/-- A handler that always succeeds, emitting no sink events itself. -/
def okHandler : Handler := fun _ _ => { events := [], fails := false }

/-- Configuration `{maxSizeBytes: 10}` with default `skipNackOnFail`. -/
def sampleConfigSize : Config :=
  { maxSizeBytes := some 10, maxTimeMs := none, skipNackOnFail := false }

/-- Configuration `{maxSizeBytes: 10, skipNackOnFail: true}`. -/
def sampleConfigSkip : Config :=
  { maxSizeBytes := some 10, maxTimeMs := none, skipNackOnFail := true }

/-- Configuration `{maxSizeBytes: 10, maxTimeMs: 50}`. -/
def sampleConfigTimer : Config :=
  { maxSizeBytes := some 10, maxTimeMs := some 50, skipNackOnFail := false }

/-- A configuration with neither threshold set. -/
def sampleConfigNone : Config :=
  { maxSizeBytes := none, maxTimeMs := none, skipNackOnFail := false }

/-- A store holding `msgA` and `msgD` (9 bytes), no timer armed. -/
def sampleState : MBMState :=
  { unackedMessageList := [msgA, msgD], bufferSize := 9
    timerHandle := none, amqpChannel := some 3 }

/-- A store holding `msgA` (4 bytes) with the flush timer armed. -/
def sampleArmedState : MBMState :=
  { unackedMessageList := [msgA], bufferSize := 4
    timerHandle := some (), amqpChannel := some 3 }

/-! ### Helper lemmas -/

/-- Lemma: `sendBufferedMessages` always resolves: it resets the store and
returns a flush record describing the detached batch. -/
theorem sendBufferedMessages_spec (config : Config) (channel : Nat)
    (handler : Handler) (s : MBMState) :
    ∃ rec : FlushRecord,
      sendBufferedMessages config channel handler s = Except.ok (resetMessages s, rec) ∧
      rec.channel = channel ∧
      rec.totalSizeInBytes = s.bufferSize ∧
      rec.messages = s.unackedMessageList := by
  unfold sendBufferedMessages finalizeMessages
  by_cases hf :
      (handler channel (mkBatch config channel s.bufferSize s.unackedMessageList)).fails
  · by_cases hn :
        (!config.skipNackOnFail && decide (0 < s.unackedMessageList.length)) = true
    · refine ⟨{ channel := channel, totalSizeInBytes := s.bufferSize
                messages := s.unackedMessageList
                handlerEvents :=
                  (handler channel
                    (mkBatch config channel s.bufferSize s.unackedMessageList)).events
                handlerFailed := true
                coordinatorNacks := nackMessageList channel s.unackedMessageList none },
              ?_, rfl, rfl, rfl⟩
      simp [hf, hn]
    · refine ⟨{ channel := channel, totalSizeInBytes := s.bufferSize
                messages := s.unackedMessageList
                handlerEvents :=
                  (handler channel
                    (mkBatch config channel s.bufferSize s.unackedMessageList)).events
                handlerFailed := true
                coordinatorNacks := [] },
              ?_, rfl, rfl, rfl⟩
      simp [hf, hn]
  · refine ⟨{ channel := channel, totalSizeInBytes := s.bufferSize
              messages := s.unackedMessageList
              handlerEvents :=
                (handler channel
                  (mkBatch config channel s.bufferSize s.unackedMessageList)).events
              handlerFailed := false
              coordinatorNacks := [] },
            ?_, rfl, rfl, rfl⟩
    simp [hf]

/-- When the size threshold is not reached by the new buffer size,
`handleMessageBuffering` only appends the message, records the channel,
and arms the timer when `maxTimeMs` is configured. -/
theorem handleMessageBuffering_no_flush (config : Config) (channel : Nat)
    (msg : ConsumeMessage) (handler : Handler) (s : MBMState)
    (h : maxSizeTriggered config (s.bufferSize + msg.byteLength) = false) :
    handleMessageBuffering config channel msg handler s =
      Except.ok
        ({ unackedMessageList := s.unackedMessageList ++ [msg]
           bufferSize := s.bufferSize + msg.byteLength
           timerHandle := if maxTimeConfigured config then some () else s.timerHandle
           amqpChannel := some channel }, none) := by
  unfold handleMessageBuffering addMessage
  by_cases ht : maxTimeConfigured config = true
  · cases hth : s.timerHandle with
    | none => simp [h, ht, hth]
    | some u => simp [h, ht, hth]
  · have ht' : maxTimeConfigured config = false := by
      simpa using ht
    simp [h, ht']

/-- When the size threshold is reached by the new buffer size,
`handleMessageBuffering` cancels any armed timer and flushes
synchronously: the detached batch is the whole buffered list including
the new message, and the store is left empty. -/
theorem handleMessageBuffering_flush (config : Config) (channel : Nat)
    (msg : ConsumeMessage) (handler : Handler) (s : MBMState)
    (h : maxSizeTriggered config (s.bufferSize + msg.byteLength) = true) :
    ∃ rec : FlushRecord,
      handleMessageBuffering config channel msg handler s =
        Except.ok
          ({ unackedMessageList := []
             bufferSize := 0
             timerHandle := none
             amqpChannel := some channel }, some rec) ∧
      rec.channel = channel ∧
      rec.totalSizeInBytes = s.bufferSize + msg.byteLength ∧
      rec.messages = s.unackedMessageList ++ [msg] := by
  unfold handleMessageBuffering addMessage
  cases hth : s.timerHandle with
  | none =>
    obtain ⟨rec, hget, hch, htot, hmsg⟩ :=
      sendBufferedMessages_spec config channel handler
        { unackedMessageList := s.unackedMessageList ++ [msg]
          bufferSize := s.bufferSize + msg.byteLength
          timerHandle := none
          amqpChannel := some channel }
    refine ⟨rec, ?_, hch, htot, hmsg⟩
    simp only [h, hth, resetMessages] at hget ⊢
    simp [hget]
  | some u =>
    obtain ⟨rec, hget, hch, htot, hmsg⟩ :=
      sendBufferedMessages_spec config channel handler
        { unackedMessageList := s.unackedMessageList ++ [msg]
          bufferSize := s.bufferSize + msg.byteLength
          timerHandle := none
          amqpChannel := some channel }
    refine ⟨rec, ?_, hch, htot, hmsg⟩
    simp only [h, hth, resetMessages] at hget ⊢
    simp [hget]

theorem runEvents_nil (config : Config) (handler : Handler) (s : MBMState) :
    runEvents config handler [] s = (s, []) := rfl

theorem runEvents_cons (config : Config) (handler : Handler) (e : Event)
    (rest : List Event) (s : MBMState) :
    runEvents config handler (e :: rest) s =
      ((runEvents config handler rest (step config handler s e).1).1,
        (step config handler s e).2 ++
          (runEvents config handler rest (step config handler s e).1).2) := rfl

theorem runEvents_append (config : Config) (handler : Handler)
    (xs ys : List Event) (s : MBMState) :
    runEvents config handler (xs ++ ys) s =
      ((runEvents config handler ys (runEvents config handler xs s).1).1,
        (runEvents config handler xs s).2 ++
          (runEvents config handler ys (runEvents config handler xs s).1).2) := by
  induction xs generalizing s with
  | nil => simp [runEvents_nil, runEvents_cons]
  | cons e rest ih =>
    simp only [List.cons_append, runEvents_cons, ih, List.append_assoc]

theorem sumBytes_nil : sumBytes [] = 0 := rfl

theorem sumBytes_cons (m : ConsumeMessage) (l : List ConsumeMessage) :
    sumBytes (m :: l) = m.byteLength + sumBytes l := by
  simp [sumBytes]

theorem sumBytes_append (l₁ l₂ : List ConsumeMessage) :
    sumBytes (l₁ ++ l₂) = sumBytes l₁ + sumBytes l₂ := by
  simp [sumBytes]

/-- While the cumulative byte size stays strictly below the configured
`maxSizeBytes`, a sequence of arrivals only accumulates: no flush
happens, the messages are appended in order, and the byte counter adds
up exactly. -/
theorem runEvents_accumulate (config : Config) (handler : Handler) (channel : Nat)
    (msgs : List ConsumeMessage) (s : MBMState) (N : Nat)
    (hN : config.maxSizeBytes = some N)
    (hlt : s.bufferSize + sumBytes msgs < N) :
    ∃ t : Option Unit, ∃ a : Option Nat,
      runEvents config handler (msgs.map (Event.arrive channel)) s =
        ({ unackedMessageList := s.unackedMessageList ++ msgs
           bufferSize := s.bufferSize + sumBytes msgs
           timerHandle := t
           amqpChannel := a }, []) := by
  induction msgs generalizing s with
  | nil =>
    refine ⟨s.timerHandle, s.amqpChannel, ?_⟩
    simp [runEvents_nil, sumBytes_nil]
  | cons m rest ih =>
    rw [sumBytes_cons] at hlt
    have hsize : maxSizeTriggered config (s.bufferSize + m.byteLength) = false := by
      simp [maxSizeTriggered, hN]
      omega
    have hstep : step config handler s (Event.arrive channel m) =
        ({ unackedMessageList := s.unackedMessageList ++ [m]
           bufferSize := s.bufferSize + m.byteLength
           timerHandle := if maxTimeConfigured config then some () else s.timerHandle
           amqpChannel := some channel }, []) := by
      simp [step, handleMessageBuffering_no_flush config channel m handler s hsize]
    obtain ⟨t, a, hrun⟩ := ih
      { unackedMessageList := s.unackedMessageList ++ [m]
        bufferSize := s.bufferSize + m.byteLength
        timerHandle := if maxTimeConfigured config then some () else s.timerHandle
        amqpChannel := some channel }
      (by dsimp only; omega)
    refine ⟨t, a, ?_⟩
    rw [List.map_cons, runEvents_cons, hstep]
    dsimp only at hrun ⊢
    rw [hrun, sumBytes_cons]
    simp [Nat.add_assoc]

theorem arrivals_cons (e : Event) (rest : List Event) :
    arrivals (e :: rest) = arrivals [e] ++ arrivals rest := by
  cases e <;> simp [arrivals]

/-- One step preserves the batching chain: the messages of the flushes
it produced, followed by the still-buffered messages, are the previously
buffered messages followed by the step's arrivals; an armed timer
implies a non-empty buffer; and every flushed batch is non-empty. -/
theorem step_partition (config : Config) (handler : Handler) (s : MBMState)
    (e : Event) (hinv : s.timerHandle.isSome → s.unackedMessageList ≠ []) :
    (((step config handler s e).2.map FlushRecord.messages).flatten ++
        (step config handler s e).1.unackedMessageList =
      s.unackedMessageList ++ arrivals [e]) ∧
    ((step config handler s e).1.timerHandle.isSome →
      (step config handler s e).1.unackedMessageList ≠ []) ∧
    (∀ rec ∈ (step config handler s e).2, rec.messages ≠ []) := by
  cases e with
  | arrive channel msg =>
    by_cases h : maxSizeTriggered config (s.bufferSize + msg.byteLength) = true
    · obtain ⟨rec, heq, hch, htot, hmsg⟩ :=
        handleMessageBuffering_flush config channel msg handler s h
      simp [step, heq, arrivals, hmsg]
    · have h' : maxSizeTriggered config (s.bufferSize + msg.byteLength) = false := by
        simpa using h
      simp [step, handleMessageBuffering_no_flush config channel msg handler s h',
        arrivals]
  | timerFire =>
    cases hth : s.timerHandle with
    | none => simp [step, hth, arrivals]
    | some u =>
      obtain ⟨rec, heq, hch, htot, hmsg⟩ :=
        sendBufferedMessages_spec config (s.amqpChannel.getD 0) handler s
      have hne := hinv (by simp [hth])
      simp [step, hth, heq, arrivals, resetMessages, hmsg, hne]

/-- Over a whole run: the flushed batches, concatenated in flush order
and followed by the messages still buffered at the end, are exactly the
initial buffer followed by all arrivals — no message is lost, duplicated,
or handed to the handler twice — and every flushed batch is non-empty. -/
theorem runEvents_partition (config : Config) (handler : Handler)
    (evs : List Event) (s : MBMState)
    (hinv : s.timerHandle.isSome → s.unackedMessageList ≠ []) :
    (((runEvents config handler evs s).2.map FlushRecord.messages).flatten ++
        (runEvents config handler evs s).1.unackedMessageList =
      s.unackedMessageList ++ arrivals evs) ∧
    ((runEvents config handler evs s).1.timerHandle.isSome →
      (runEvents config handler evs s).1.unackedMessageList ≠ []) ∧
    (∀ rec ∈ (runEvents config handler evs s).2, rec.messages ≠ []) := by
  induction evs generalizing s with
  | nil => simpa [runEvents_nil, arrivals] using hinv
  | cons e rest ih =>
    obtain ⟨hchain, hinv1, hne⟩ := step_partition config handler s e hinv
    obtain ⟨ihchain, ihinv, ihne⟩ := ih (step config handler s e).1 hinv1
    refine ⟨?_, ?_, ?_⟩
    · rw [runEvents_cons]
      dsimp only
      rw [List.map_append, List.flatten_append, List.append_assoc, ihchain,
        ← List.append_assoc, hchain, arrivals_cons e rest, ← List.append_assoc]
    · rw [runEvents_cons]
      exact ihinv
    · rw [runEvents_cons]
      dsimp only
      intro rec hrec
      rcases List.mem_append.mp hrec with hmem | hmem
      · exact hne rec hmem
      · exact ihne rec hmem

/-- One step preserves the byte-accounting invariant
`bufferSize = sumBytes unackedMessageList`. -/
theorem step_bytes (config : Config) (handler : Handler) (s : MBMState)
    (e : Event) (h : s.bufferSize = sumBytes s.unackedMessageList) :
    (step config handler s e).1.bufferSize =
      sumBytes (step config handler s e).1.unackedMessageList := by
  cases e with
  | arrive channel msg =>
    by_cases hs : maxSizeTriggered config (s.bufferSize + msg.byteLength) = true
    · obtain ⟨rec, heq, _, _, _⟩ :=
        handleMessageBuffering_flush config channel msg handler s hs
      simp [step, heq, sumBytes_nil]
    · have hs' : maxSizeTriggered config (s.bufferSize + msg.byteLength) = false := by
        simpa using hs
      simp [step, handleMessageBuffering_no_flush config channel msg handler s hs',
        sumBytes_append, sumBytes_cons, sumBytes_nil, h]
  | timerFire =>
    cases hth : s.timerHandle with
    | none => simpa [step, hth] using h
    | some u =>
      obtain ⟨rec, heq, _, _, _⟩ :=
        sendBufferedMessages_spec config (s.amqpChannel.getD 0) handler s
      simp [step, hth, heq, resetMessages, sumBytes_nil]

/-- A whole run preserves the byte-accounting invariant. -/
theorem runEvents_bytes (config : Config) (handler : Handler)
    (evs : List Event) (s : MBMState)
    (h : s.bufferSize = sumBytes s.unackedMessageList) :
    (runEvents config handler evs s).1.bufferSize =
      sumBytes (runEvents config handler evs s).1.unackedMessageList := by
  induction evs generalizing s with
  | nil => simpa [runEvents_nil] using h
  | cons e rest ih =>
    rw [runEvents_cons]
    exact ih (step config handler s e).1 (step_bytes config handler s e h)

/-- The arrivals of a pure arrival schedule are the messages themselves. -/
theorem arrivals_map_arrive (channel : Nat) (msgs : List ConsumeMessage) :
    arrivals (msgs.map (Event.arrive channel)) = msgs := by
  induction msgs with
  | nil => rfl
  | cons m rest ih => simp [arrivals] at ih ⊢; exact ih

/-! ### Claims -/

/-- C1: with `maxSizeBytes = N` configured, if the cumulative payload
size of a sequence of `handleMessageBuffering` calls first reaches or
exceeds `N` on the k-th call (the calls for `front` stay below `N`, the
call for `last` reaches it), then that k-th call flushes synchronously:
the handler is invoked exactly once, with `totalSizeInBytes` equal to
the cumulative sum and `messages` equal to the k buffered messages in
append order, and immediately afterwards the store is empty. -/
theorem size_threshold_flushes_on_kth_call (config : Config) (handler : Handler)
    (channel N : Nat) (front : List ConsumeMessage) (last : ConsumeMessage)
    (hN : config.maxSizeBytes = some N) (h0 : 0 < N)
    (h1 : sumBytes front < N)
    (h2 : N ≤ sumBytes front + last.byteLength) :
    ∃ rec : FlushRecord, ∃ s1 : MBMState,
      runEvents config handler ((front ++ [last]).map (Event.arrive channel))
          (initState config) = (s1, [rec]) ∧
      rec.totalSizeInBytes = sumBytes (front ++ [last]) ∧
      rec.messages = front ++ [last] ∧
      getMessageCount s1 = 0 ∧
      getBufferSize s1 = 0 := by
  obtain ⟨t, a, hacc⟩ := runEvents_accumulate config handler channel front
    (initState config) N hN (by simpa [initState, resetMessages, fieldInitState] using h1)
  have hacc' : runEvents config handler (front.map (Event.arrive channel))
      (initState config) =
      ({ unackedMessageList := front, bufferSize := sumBytes front
         timerHandle := t, amqpChannel := a }, []) := by
    simpa [initState, resetMessages, fieldInitState] using hacc
  have hsize : maxSizeTriggered config (sumBytes front + last.byteLength) = true := by
    simp [maxSizeTriggered, hN]
    omega
  obtain ⟨rec, heq, hch, htot, hmsg⟩ := handleMessageBuffering_flush config channel
    last handler
    { unackedMessageList := front, bufferSize := sumBytes front
      timerHandle := t, amqpChannel := a }
    (by dsimp only; exact hsize)
  refine ⟨rec,
    { unackedMessageList := [], bufferSize := 0
      timerHandle := none, amqpChannel := some channel }, ?_, ?_, ?_, rfl, rfl⟩
  · rw [List.map_append, runEvents_append, hacc']
    dsimp only
    simp [runEvents_cons, runEvents_nil, step, heq]
  · rw [htot]
    dsimp only
    rw [sumBytes_append, sumBytes_cons, sumBytes_nil]
    omega
  · rw [hmsg]

/-- Witness for C1: the spec scenario — `{maxSizeBytes: 10}`, three
appends of 4 bytes each; one flush on the third append with
`totalSizeInBytes = 12` and all three messages, leaving the store empty. -/
theorem size_threshold_flushes_on_kth_call_witness :
    ∃ rec : FlushRecord, ∃ s1 : MBMState,
      runEvents sampleConfigSize okHandler
          (([msgA, msgB] ++ [msgC]).map (Event.arrive 3))
          (initState sampleConfigSize) = (s1, [rec]) ∧
      rec.totalSizeInBytes = sumBytes ([msgA, msgB] ++ [msgC]) ∧
      rec.messages = [msgA, msgB] ++ [msgC] ∧
      getMessageCount s1 = 0 ∧
      getBufferSize s1 = 0 :=
  size_threshold_flushes_on_kth_call sampleConfigSize okHandler 3 10
    [msgA, msgB] msgC rfl (by decide) (by decide) (by decide)

/-- C2: when the handler fails on a flush with `skipNackOnFail = false`
and a non-empty detached batch, the coordinator nacks exactly the
detached messages, once each, in original append order, with no explicit
requeue override (`requeue = none`). -/
theorem handler_failure_nacks_batch (config : Config) (channel : Nat)
    (handler : Handler) (s : MBMState)
    (hskip : config.skipNackOnFail = false)
    (hne : s.unackedMessageList ≠ [])
    (hfail : (handler channel
        (mkBatch config channel s.bufferSize s.unackedMessageList)).fails = true) :
    ∃ rec : FlushRecord,
      sendBufferedMessages config channel handler s =
        Except.ok (resetMessages s, rec) ∧
      rec.messages = s.unackedMessageList ∧
      rec.coordinatorNacks = nackMessageList channel s.unackedMessageList none ∧
      rec.coordinatorNacks =
        s.unackedMessageList.map (fun m => SinkEvent.nack channel m none) := by
  have hlen : (0 < s.unackedMessageList.length) := List.length_pos.mpr hne
  refine ⟨{ channel := channel, totalSizeInBytes := s.bufferSize
            messages := s.unackedMessageList
            handlerEvents :=
              (handler channel
                (mkBatch config channel s.bufferSize s.unackedMessageList)).events
            handlerFailed := true
            coordinatorNacks := nackMessageList channel s.unackedMessageList none },
          ?_, rfl, rfl, rfl⟩
  unfold sendBufferedMessages finalizeMessages
  simp [hfail, hskip, hlen]

/-- Witness for C2: a failing handler over a two-message batch with the
default configuration; both messages are nacked, in order, with no
requeue argument. -/
theorem handler_failure_nacks_batch_witness :
    ∃ rec : FlushRecord,
      sendBufferedMessages sampleConfigSize 3 failingHandler sampleState =
        Except.ok (resetMessages sampleState, rec) ∧
      rec.messages = sampleState.unackedMessageList ∧
      rec.coordinatorNacks = nackMessageList 3 sampleState.unackedMessageList none ∧
      rec.coordinatorNacks =
        sampleState.unackedMessageList.map (fun m => SinkEvent.nack 3 m none) :=
  handler_failure_nacks_batch sampleConfigSize 3 failingHandler sampleState
    rfl (by decide) rfl

/-- C3: no failure raised during a flush ever propagates out of
`handleMessageBuffering` — for every configuration, channel, message,
handler (including ones that throw) and store state, the call resolves
(`Except.ok`); the handler's failure is absorbed after the nack safety
net. -/
theorem no_exception_escapes_buffering (config : Config) (channel : Nat)
    (msg : ConsumeMessage) (handler : Handler) (s : MBMState) :
    ∃ r : MBMState × Option FlushRecord,
      handleMessageBuffering config channel msg handler s = Except.ok r := by
  by_cases h : maxSizeTriggered config (s.bufferSize + msg.byteLength) = true
  · obtain ⟨rec, heq, _, _, _⟩ :=
      handleMessageBuffering_flush config channel msg handler s h
    exact ⟨_, heq⟩
  · have h' : maxSizeTriggered config (s.bufferSize + msg.byteLength) = false := by
      simpa using h
    exact ⟨_, handleMessageBuffering_no_flush config channel msg handler s h'⟩

/-- C4: batches never overlap — over any run from a fresh manager, the
flushed batches concatenated in flush order, followed by what is still
buffered, are exactly the arrived messages in arrival order (so no cycle
is detached and handed to the handler twice, and no message is lost or
duplicated), and every flushed batch is non-empty (no phantom second
flush of an already-reset cycle). -/
theorem at_most_one_flush_per_cycle (config : Config) (handler : Handler)
    (evs : List Event) :
    (((runEvents config handler evs (initState config)).2.map
        FlushRecord.messages).flatten ++
        (runEvents config handler evs (initState config)).1.unackedMessageList =
      arrivals evs) ∧
    ∀ rec ∈ (runEvents config handler evs (initState config)).2,
      rec.messages ≠ [] := by
  obtain ⟨hchain, _, hne⟩ := runEvents_partition config handler evs
    (initState config) (by simp [initState, resetMessages, fieldInitState])
  exact ⟨by simpa [initState, resetMessages, fieldInitState] using hchain, hne⟩

/-- Witness for C4: in the three-append scenario the single flushed
batch accounts for all arrivals and is non-empty. -/
theorem at_most_one_flush_per_cycle_witness :
    (((runEvents sampleConfigSize okHandler
          ([msgA, msgB, msgC].map (Event.arrive 3))
          (initState sampleConfigSize)).2.map FlushRecord.messages).flatten ++
        (runEvents sampleConfigSize okHandler
          ([msgA, msgB, msgC].map (Event.arrive 3))
          (initState sampleConfigSize)).1.unackedMessageList =
      arrivals ([msgA, msgB, msgC].map (Event.arrive 3))) ∧
    ({ channel := 3, totalSizeInBytes := 12, messages := [msgA, msgB, msgC]
       handlerEvents := [], handlerFailed := false,
       coordinatorNacks := [] } : FlushRecord).messages ≠ [] :=
  ⟨(at_most_one_flush_per_cycle sampleConfigSize okHandler
      ([msgA, msgB, msgC].map (Event.arrive 3))).1,
    (at_most_one_flush_per_cycle sampleConfigSize okHandler
      ([msgA, msgB, msgC].map (Event.arrive 3))).2
      { channel := 3, totalSizeInBytes := 12, messages := [msgA, msgB, msgC]
        handlerEvents := [], handlerFailed := false, coordinatorNacks := [] }
      (by decide)⟩

/-- C5: the batch handle's `ackAll`/`nackAll` closures are bound to the
detached message list and the channel captured at flush time: they
dispatch exactly the detached messages, and they can only coincide with
an acknowledgment of the store's current contents after any later
coordinator operations if that current content happens to equal the
detached batch — later operations cannot re-target the closures. -/
theorem batch_handle_bound_to_detached_batch (config : Config) (channel : Nat)
    (handler : Handler) (s s1 : MBMState) (rec : FlushRecord)
    (laterEvs : List Event) (requeue : Option Bool)
    (h : sendBufferedMessages config channel handler s = Except.ok (s1, rec)) :
    (mkBatch config channel s.bufferSize s.unackedMessageList).ackAll =
        ackMessageList channel rec.messages ∧
    (mkBatch config channel s.bufferSize s.unackedMessageList).nackAll requeue =
        nackMessageList channel rec.messages requeue ∧
    rec.messages = s.unackedMessageList ∧
    ((mkBatch config channel s.bufferSize s.unackedMessageList).ackAll =
        ackMessageList channel
          (runEvents config handler laterEvs s1).1.unackedMessageList →
      (runEvents config handler laterEvs s1).1.unackedMessageList = rec.messages) := by
  obtain ⟨rec0, heq, _, _, hmsg⟩ := sendBufferedMessages_spec config channel handler s
  rw [heq] at h
  have hpair : (resetMessages s, rec0) = (s1, rec) := Except.ok.inj h
  have hrec : rec0 = rec := congrArg Prod.snd hpair
  have hmsg' : rec.messages = s.unackedMessageList := hrec ▸ hmsg
  have hinj : Function.Injective (fun m => SinkEvent.ack channel m) := by
    intro x y hxy
    injection hxy
  refine ⟨by dsimp [mkBatch]; rw [hmsg'], by dsimp [mkBatch]; rw [hmsg'], hmsg', ?_⟩
  intro hcoincide
  have hmaps : List.map (fun m => SinkEvent.ack channel m) rec.messages =
      List.map (fun m => SinkEvent.ack channel m)
        (runEvents config handler laterEvs s1).1.unackedMessageList := by
    have h1 : (mkBatch config channel s.bufferSize s.unackedMessageList).ackAll =
        ackMessageList channel rec.messages := by
      dsimp [mkBatch]
      rw [hmsg']
    rw [h1] at hcoincide
    exact hcoincide
  exact (List.map_injective_iff.mpr hinj hmaps).symm

/-- Witness for C5: a concrete flush of `[msgA, msgD]`; after a later
arrival starts a fresh cycle the handle still acknowledges exactly
`[msgA, msgD]`. -/
theorem batch_handle_bound_to_detached_batch_witness :
    (mkBatch sampleConfigSize 3 sampleState.bufferSize
        sampleState.unackedMessageList).ackAll =
      ackMessageList 3
        ({ channel := 3, totalSizeInBytes := 9, messages := [msgA, msgD]
           handlerEvents := [], handlerFailed := false
           coordinatorNacks := [] } : FlushRecord).messages ∧
    (mkBatch sampleConfigSize 3 sampleState.bufferSize
        sampleState.unackedMessageList).nackAll (some true) =
      nackMessageList 3
        ({ channel := 3, totalSizeInBytes := 9, messages := [msgA, msgD]
           handlerEvents := [], handlerFailed := false
           coordinatorNacks := [] } : FlushRecord).messages (some true) ∧
    ({ channel := 3, totalSizeInBytes := 9, messages := [msgA, msgD]
       handlerEvents := [], handlerFailed := false
       coordinatorNacks := [] } : FlushRecord).messages =
      sampleState.unackedMessageList :=
  ⟨(batch_handle_bound_to_detached_batch sampleConfigSize 3 okHandler sampleState
      (resetMessages sampleState)
      { channel := 3, totalSizeInBytes := 9, messages := [msgA, msgD]
        handlerEvents := [], handlerFailed := false, coordinatorNacks := [] }
      [Event.arrive 3 msgC] (some true) rfl).1,
   (batch_handle_bound_to_detached_batch sampleConfigSize 3 okHandler sampleState
      (resetMessages sampleState)
      { channel := 3, totalSizeInBytes := 9, messages := [msgA, msgD]
        handlerEvents := [], handlerFailed := false, coordinatorNacks := [] }
      [Event.arrive 3 msgC] (some true) rfl).2.1,
   (batch_handle_bound_to_detached_batch sampleConfigSize 3 okHandler sampleState
      (resetMessages sampleState)
      { channel := 3, totalSizeInBytes := 9, messages := [msgA, msgD]
        handlerEvents := [], handlerFailed := false, coordinatorNacks := [] }
      [Event.arrive 3 msgC] (some true) rfl).2.2.1⟩

/-- C6: if a sequence of appends triggers no flush, the store holds
exactly the appended messages in order (none lost, none duplicated) and
its byte total is the exact sum of their payload lengths; moreover the
invariant `bufferSize = sumBytes unackedMessageList` holds after every
run of operations from a fresh manager. -/
theorem buffer_accounting_exact (config : Config) (handler : Handler)
    (channel : Nat) (msgs : List ConsumeMessage)
    (hnoflush : (runEvents config handler (msgs.map (Event.arrive channel))
        (initState config)).2 = []) :
    (runEvents config handler (msgs.map (Event.arrive channel))
        (initState config)).1.unackedMessageList = msgs ∧
    getMessageCount (runEvents config handler (msgs.map (Event.arrive channel))
        (initState config)).1 = msgs.length ∧
    getBufferSize (runEvents config handler (msgs.map (Event.arrive channel))
        (initState config)).1 = sumBytes msgs ∧
    ∀ evs : List Event,
      getBufferSize (runEvents config handler evs (initState config)).1 =
        sumBytes (runEvents config handler evs (initState config)).1.unackedMessageList := by
  obtain ⟨hchain, _, _⟩ := runEvents_partition config handler
    (msgs.map (Event.arrive channel)) (initState config)
    (by simp [initState, resetMessages, fieldInitState])
  rw [hnoflush] at hchain
  have hlist : (runEvents config handler (msgs.map (Event.arrive channel))
      (initState config)).1.unackedMessageList = msgs := by
    simpa [initState, resetMessages, fieldInitState, arrivals_map_arrive] using hchain
  refine ⟨hlist, ?_, ?_, ?_⟩
  · rw [getMessageCount, hlist]
  · rw [getBufferSize,
      runEvents_bytes config handler (msgs.map (Event.arrive channel))
        (initState config) rfl, hlist]
  · intro evs
    exact runEvents_bytes config handler evs (initState config) rfl

/-- Witness for C6: two appends below the threshold leave exactly those
messages and 8 bytes buffered; the byte invariant holds after a timer
event as well. -/
theorem buffer_accounting_exact_witness :
    (runEvents sampleConfigSize okHandler
        ([msgA, msgB].map (Event.arrive 3))
        (initState sampleConfigSize)).1.unackedMessageList = [msgA, msgB] ∧
    getBufferSize (runEvents sampleConfigSize okHandler [Event.timerFire]
        (initState sampleConfigSize)).1 =
      sumBytes (runEvents sampleConfigSize okHandler [Event.timerFire]
        (initState sampleConfigSize)).1.unackedMessageList :=
  ⟨(buffer_accounting_exact sampleConfigSize okHandler 3 [msgA, msgB] rfl).1,
   (buffer_accounting_exact sampleConfigSize okHandler 3 [msgA, msgB] rfl).2.2.2
     [Event.timerFire]⟩

/-- C7: `finalizeMessages` returns the store's byte total and message
list exactly as they were before the call and leaves the store empty
(`getMessageCount = 0`, `getBufferSize = 0`), for every prior state. -/
theorem finalize_detaches_and_resets (s : MBMState) :
    finalizeMessages s = ((getBufferSize s, s.unackedMessageList), resetMessages s) ∧
    (finalizeMessages s).1.1 = s.bufferSize ∧
    (finalizeMessages s).1.2 = s.unackedMessageList ∧
    getMessageCount (finalizeMessages s).2 = 0 ∧
    getBufferSize (finalizeMessages s).2 = 0 :=
  ⟨rfl, rfl, rfl, rfl, rfl⟩

/-- C8: when the armed timer fires, the armed flag is cleared as part of
the firing step, so a message arriving afterwards (e.g. while the fired
flush's handler is still in flight) can arm its own timer: the arrival
step arms a fresh timer and does not flush. -/
theorem timer_fire_clears_armed_flag (config : Config) (handler : Handler)
    (channel : Nat) (msg : ConsumeMessage) (s : MBMState)
    (harm : s.timerHandle = some ())
    (htime : maxTimeConfigured config = true)
    (hsize : maxSizeTriggered config msg.byteLength = false) :
    (step config handler s Event.timerFire).1.timerHandle = none ∧
    (step config handler (step config handler s Event.timerFire).1
        (Event.arrive channel msg)).1.timerHandle = some () ∧
    (step config handler (step config handler s Event.timerFire).1
        (Event.arrive channel msg)).2 = [] := by
  obtain ⟨rec, heq, _, _, _⟩ :=
    sendBufferedMessages_spec config (s.amqpChannel.getD 0) handler s
  have hstep1 : step config handler s Event.timerFire =
      ({ unackedMessageList := [], bufferSize := 0
         timerHandle := none, amqpChannel := s.amqpChannel }, [rec]) := by
    simp [step, harm, heq, resetMessages]
  have hsize' : maxSizeTriggered config
      (({ unackedMessageList := [], bufferSize := 0
          timerHandle := none, amqpChannel := s.amqpChannel } : MBMState).bufferSize +
        msg.byteLength) = false := by
    dsimp only
    rwa [Nat.zero_add]
  have hstep2 := handleMessageBuffering_no_flush config channel msg handler
    { unackedMessageList := [], bufferSize := 0
      timerHandle := none, amqpChannel := s.amqpChannel } hsize'
  refine ⟨by rw [hstep1], ?_, ?_⟩
  · rw [hstep1]
    dsimp only
    simp [step, hstep2, htime]
  · rw [hstep1]
    dsimp only
    simp [step, hstep2]

/-- Witness for C8: a fired timer over an armed one-message cycle leaves
the flag cleared, and a following small arrival arms a fresh timer
without flushing. -/
theorem timer_fire_clears_armed_flag_witness :
    (step sampleConfigTimer okHandler sampleArmedState Event.timerFire).1.timerHandle
        = none ∧
    (step sampleConfigTimer okHandler
        (step sampleConfigTimer okHandler sampleArmedState Event.timerFire).1
        (Event.arrive 3 msgD)).1.timerHandle = some () ∧
    (step sampleConfigTimer okHandler
        (step sampleConfigTimer okHandler sampleArmedState Event.timerFire).1
        (Event.arrive 3 msgD)).2 = [] :=
  timer_fire_clears_armed_flag sampleConfigTimer okHandler 3 msgD sampleArmedState
    rfl rfl (by decide)

/-- C9: when the handler fails on a flush and `skipNackOnFail = true`,
the coordinator makes no negative-acknowledgment call of its own. -/
theorem skip_nack_on_fail_suppresses_nacks (config : Config) (channel : Nat)
    (handler : Handler) (s : MBMState)
    (hskip : config.skipNackOnFail = true)
    (hfail : (handler channel
        (mkBatch config channel s.bufferSize s.unackedMessageList)).fails = true) :
    ∃ rec : FlushRecord,
      sendBufferedMessages config channel handler s =
        Except.ok (resetMessages s, rec) ∧
      rec.handlerFailed = true ∧
      rec.coordinatorNacks = [] := by
  refine ⟨{ channel := channel, totalSizeInBytes := s.bufferSize
            messages := s.unackedMessageList
            handlerEvents :=
              (handler channel
                (mkBatch config channel s.bufferSize s.unackedMessageList)).events
            handlerFailed := true
            coordinatorNacks := [] },
          ?_, rfl, rfl⟩
  unfold sendBufferedMessages finalizeMessages
  simp [hfail, hskip]

/-- Witness for C9: a failing handler with `skipNackOnFail: true` over a
non-empty batch produces no coordinator nacks. -/
theorem skip_nack_on_fail_suppresses_nacks_witness :
    ∃ rec : FlushRecord,
      sendBufferedMessages sampleConfigSkip 3 failingHandler sampleState =
        Except.ok (resetMessages sampleState, rec) ∧
      rec.handlerFailed = true ∧
      rec.coordinatorNacks = [] :=
  skip_nack_on_fail_suppresses_nacks sampleConfigSkip 3 failingHandler sampleState
    rfl rfl

/-- C10: immediately after construction, for any configuration, the
store is empty — `getMessageCount = 0` and `getBufferSize = 0` — because
the constructor's `resetMessages()` overrides the field's declared
initial buffer size of `1`. -/
theorem constructor_resets_store (config : Config) :
    getMessageCount (initState config) = 0 ∧
    getBufferSize (initState config) = 0 ∧
    fieldInitState.bufferSize = 1 ∧
    initState config = resetMessages fieldInitState :=
  ⟨rfl, rfl, rfl, rfl⟩

end AmqpCacoon
